import Mathlib

/-!
Shallow embedding of the core logic of the FastAPI job-board repository:
the profile-completion scorer (`src/crud/jobSeeker_crud.py`), the
role-authorization middleware (`src/core/middleware.py` together with
`src/core/dependencies.py`, `src/core/config.py`, `main.py` and the token
helper `tests/core/auth.py`), and the job-seeker CRUD operations
(`src/crud/jobSeeker_crud.py`).  Definitions mirror the Python source;
theorems settle the frozen claims about them.
-/

namespace JobBoard

/-! ### Python value model

Profile fields hold dynamically typed Python values: a string, an integer
(`current_salary`), or `None`.  `pyStr` is Python's `str()` on these values;
`pyStrip` models `str.strip()` (leading/trailing whitespace removal). -/

inductive PyVal where
  | vNone : PyVal
  | vStr (s : String) : PyVal
  | vInt (n : Int) : PyVal
deriving DecidableEq, Repr

def pyStr : PyVal → String
  | .vNone => "None"
  | .vStr s => s
  | .vInt n => toString n

/-- Python's `str.strip()`: remove leading and trailing whitespace. -/
def pyStrip (s : String) : String :=
  String.mk
    (((s.toList.dropWhile Char.isWhitespace).reverse.dropWhile
        Char.isWhitespace).reverse)

/-- The test `value is None or str(value).strip() == ""` from
`is_section_complete`. -/
def fieldBlank (v : PyVal) : Bool :=
  (v == PyVal.vNone) || (pyStrip (pyStr v) == "")

/-! ### Job-seeker profile (src/models/jobSeekers.py)

The eight scoreable attributes of a `JobSeekers` row, plus its primary key
and the unique foreign key `user_id`. -/

inductive FieldName where
  | first_name | last_name | desired_job_title | phone_number
  | current_salary | location | past_experience | skill_set
deriving DecidableEq, Repr

structure JobSeekers where
  job_seeker_id : Nat
  user_id : Nat
  first_name : PyVal
  last_name : PyVal
  desired_job_title : PyVal
  phone_number : PyVal
  current_salary : PyVal
  location : PyVal
  past_experience : PyVal
  skill_set : PyVal
deriving DecidableEq, Repr

/-- Python's `getattr(seeker, field)` for the scoreable fields. -/
def getattr (s : JobSeekers) : FieldName → PyVal
  | .first_name => s.first_name
  | .last_name => s.last_name
  | .desired_job_title => s.desired_job_title
  | .phone_number => s.phone_number
  | .current_salary => s.current_salary
  | .location => s.location
  | .past_experience => s.past_experience
  | .skill_set => s.skill_set

/-- `setattr`: replace one scoreable field's value. -/
def setField (s : JobSeekers) : FieldName → PyVal → JobSeekers
  | .first_name, v => { s with first_name := v }
  | .last_name, v => { s with last_name := v }
  | .desired_job_title, v => { s with desired_job_title := v }
  | .phone_number, v => { s with phone_number := v }
  | .current_salary, v => { s with current_salary := v }
  | .location, v => { s with location := v }
  | .past_experience, v => { s with past_experience := v }
  | .skill_set, v => { s with skill_set := v }

/-! ### Profile-completion scorer (src/crud/jobSeeker_crud.py, lines 64-133) -/

def BIO_PREREQUISITES : List FieldName :=
  [.first_name, .last_name, .desired_job_title, .phone_number,
   .current_salary, .location]

def EXPERIENCE_PREREQUISITES : List FieldName := [.past_experience]

def SKILL_PREREQUISITES : List FieldName := [.skill_set]

/-- The `WEIGHTS` dict: bio 50, experience 30, skills 20. -/
def WEIGHTS (k : String) : Nat :=
  if k == "bio" then 50
  else if k == "experience" then 30
  else if k == "skills" then 20
  else 0

/-- `is_section_complete`: the loop returns `False` at the first blank field,
`True` when the list is exhausted (and immediately for an empty list). -/
def is_section_complete (s : JobSeekers) : List FieldName → Bool
  | [] => true
  | f :: rest =>
      if fieldBlank (getattr s f) then false else is_section_complete s rest

structure Completion where
  overall_percentage : Nat
  bio_percentage : Nat
  experience_percentage : Nat
  skills_percentage : Nat
deriving DecidableEq, Repr

/-- The pure computation of `profile_completion_count` once the seeker row
has been fetched (lines 114-133). -/
def profile_completion (s : JobSeekers) : Completion :=
  let bio_is_complete := is_section_complete s BIO_PREREQUISITES
  let experience_is_complete := is_section_complete s EXPERIENCE_PREREQUISITES
  let skills_is_complete := is_section_complete s SKILL_PREREQUISITES
  let overall_score :=
    (if bio_is_complete then WEIGHTS "bio" else 0) +
    (if experience_is_complete then WEIGHTS "experience" else 0) +
    (if skills_is_complete then WEIGHTS "skills" else 0)
  { overall_percentage := overall_score
    bio_percentage := if bio_is_complete then 100 else 0
    experience_percentage := if experience_is_complete then 100 else 0
    skills_percentage := if skills_is_complete then 100 else 0 }

/-- Spec-side group completeness, written from the spec's words: a group is
complete iff every field in it is non-null and, when stringified and
trimmed, non-empty. -/
def groupCompleteSpec (s : JobSeekers) (fields : List FieldName) : Bool :=
  fields.all (fun f =>
    !(getattr s f == PyVal.vNone) && !(pyStrip (pyStr (getattr s f)) == ""))

/-! ### Roles and principals (src/models/users.py) -/

inductive roles where
  | job_seeker
  | recruiter
deriving DecidableEq, Repr

/-- The `str` value of each enum member. -/
def roles.value : roles → String
  | .job_seeker => "Job Seeker"
  | .recruiter => "Recruiter"

/-- What the middleware needs of a `User` row: its email and role tag. -/
structure UserRec where
  email : String
  role : roles
deriving DecidableEq, Repr

/-! ### Route patterns (main.py ROLE_MAP, src/core/config.py)

The policy patterns all have the shape `r"/base(/.*)?$"` matched with
`re.match` (anchored at the start), i.e. the path is exactly `base` or
starts with `base ++ "/"`.  The bypass patterns have the shapes `^/$`,
`^base/?$` and `^base/\d+/?$`.  Each shape is embedded as a decidable
matcher on newline-free paths (ASCII digits for `\d`). -/

/-- Strip a literal prefix from a character list. -/
def stripChars : List Char → List Char → Option (List Char)
  | [], rest => some rest
  | _ :: _, [] => none
  | p :: ps, c :: cs => if p = c then stripChars ps cs else none

/-- `s.startswith(p)` / anchored literal matching: `p` is a prefix of
`s`. -/
def startsWith (p : String) (s : String) : Bool :=
  (stripChars p.toList s.toList).isSome

/-- `re.match(r"base(/.*)?$", path)`: path equals `base` or has prefix
`base ++ "/"`. -/
def matchRoutePattern (base : String) (path : String) : Bool :=
  path == base || startsWith (base ++ "/") path

/-- `re.match(r"^base/?$", path)`: exactly `base` with an optional trailing
slash. -/
def matchOptSlash (base : String) (path : String) : Bool :=
  path == base || path == base ++ "/"

/-- `re.match(r"^base/\d+/?$", path)`: `base`, a slash, one or more digits,
an optional trailing slash. -/
def matchIdPattern (base : String) (path : String) : Bool :=
  match stripChars (base ++ "/").toList path.toList with
  | none => false
  | some rest =>
      let ds := rest.takeWhile Char.isDigit
      let tail := rest.dropWhile Char.isDigit
      !ds.isEmpty && (tail.isEmpty || tail == ['/'])

/-- `BYPASS_MIDDLEWARE_PATHS` (src/core/config.py lines 25-32), in order.
The middleware only asks whether some pattern matches, so the list is
folded into one disjunction. -/
def matchesBypass (path : String) : Bool :=
  path == "/" ||
  matchOptSlash "/users/login" path || matchOptSlash "/users/register" path ||
  matchOptSlash "/companies" path || matchIdPattern "/companies" path ||
  matchOptSlash "/listings" path || matchIdPattern "/listings" path ||
  matchOptSlash "/seekers" path || matchIdPattern "/seekers" path ||
  matchOptSlash "/recruiters" path || matchIdPattern "/recruiters" path

/-- `ROLE_MAP` (main.py lines 91-97): an insertion-ordered dict from pattern
to allowed roles; each pattern is `r"/base(/.*)?$"`, recorded here by its
base. -/
def ROLE_MAP : List (String × List roles) :=
  [("/recruiters", [roles.recruiter]),
   ("/applications", [roles.recruiter, roles.job_seeker]),
   ("/seekers", [roles.job_seeker]),
   ("/listings", [roles.recruiter, roles.job_seeker]),
   ("/companies", [roles.recruiter, roles.job_seeker])]

/-- The `for pattern, roles_list in self.role_map.items()` loop with `break`:
first matching entry wins. -/
def findPolicy (path : String) : Option (List roles) :=
  (ROLE_MAP.find? (fun e => matchRoutePattern e.1 path)).map Prod.snd

/-! ### Token verification (tests/core/auth.py)

`src/core/auth.py` is not present in the repository; the middleware's
`auth.verify_token` is embedded from the copy at `tests/core/auth.py`
(cited by the spec): JWT decoding itself (the `jwt.decode` call) is a
parameter, and `verify_token` returns the `sub` claim, or `None` when
decoding raises `JWTError` or the payload has no `sub`. -/

inductive JwtDecode where
  | err : JwtDecode
  | ok (sub : Option String) : JwtDecode
deriving DecidableEq, Repr

def verify_token (decode : String → JwtDecode) (token : String) :
    Option String :=
  match decode token with
  | .err => none
  | .ok sub => sub

/-! ### The authorization gate (src/core/middleware.py lines 46-100) -/

structure Request where
  path : String
  method : String
  authHeader : Option String
deriving DecidableEq, Repr

inductive GateOutcome where
  | forward
  | reject (statusCode : Nat) (detail : String)
deriving DecidableEq, Repr

/-- Session acquisition and release events of `async with
self.session_factory() as session`. -/
inductive SessionEvent where
  | acquire
  | release
deriving DecidableEq, Repr

/-- Python `str.split(sep)` over the character list: split at every
occurrence of `sep`, keeping empty chunks. -/
def splitAux (sep : Char) : List Char → List Char → List (List Char)
  | [], acc => [acc.reverse]
  | c :: cs, acc =>
      if c == sep then acc.reverse :: splitAux sep cs []
      else splitAux sep cs (c :: acc)

def pySplit (sep : Char) (s : String) : List String :=
  (splitAux sep s.toList []).map String.mk

/-- `auth_header.split(" ")[1]`. -/
def extractToken (h : String) : String :=
  (pySplit ' ' h).getD 1 ""

/-- `RoleAuthorizationMiddleware.dispatch`.  `decode` abstracts `jwt.decode`
and `lookup` abstracts the `get_db_user_by_username` query (`None` subject
matches no row).  Besides the outcome, the trace of session events of the
`async with` block is returned: the block acquires on entry and releases on
every exit, and the success path calls the downstream handler after the
block has exited. -/
def dispatch (decode : String → JwtDecode) (lookup : String → Option UserRec)
    (req : Request) : GateOutcome × List SessionEvent :=
  let required_roles := findPolicy req.path
  if req.method == "GET" && matchesBypass req.path then
    (.forward, [])
  else
    match required_roles with
    | none => (.forward, [])
    | some allowed =>
      match req.authHeader with
      | none => (.reject 401 "Not authenticated. Missing Bearer token.", [])
      | some h =>
        if !(startsWith "Bearer " h) then
          (.reject 401 "Not authenticated. Missing Bearer token.", [])
        else
          let token := extractToken h
          -- `auth.verify_token` is total, so the enclosing try/except
          -- never fires; a failed verification yields `none`.
          let username := verify_token decode token
          -- USER RETRIEVAL inside the session block; `email == None`
          -- selects no row.
          let user := match username with
            | none => none
            | some u => lookup u
          match user with
          | none =>
              (.reject 401 "Authentication successful but user not found in DB.",
               [.acquire, .release])
          | some user =>
              if user.role ∈ allowed then
                (.forward, [.acquire, .release])
              else
                (.reject 403 (user.role.value ++
                   " role is not authorized for this resource."),
                 [.acquire, .release])

/-- `get_current_user` (src/core/dependencies.py lines 34-51), the
dependency route handlers use: verify the token, resolve the subject, and
raise 404 "User not found." when no principal matches. -/
def get_current_user (decode : String → JwtDecode)
    (lookup : String → Option UserRec) (token : String) :
    Except (Nat × String) UserRec :=
  let username := verify_token decode token
  let user := match username with
    | none => none
    | some u => lookup u
  match user with
  | none => .error (404, "User not found.")
  | some u => .ok u

/-! ### Job-seeker CRUD state (src/crud/jobSeeker_crud.py)

The datastore is modelled as the lists of `User` and `JobSeekers` rows the
operations touch.  `session.get(Model, pk)` is a primary-key lookup; the
`user.job_seeker_profile` relationship resolves through the unique foreign
key `JobSeekers.user_id`. -/

structure UserRow where
  id : Nat
  email : String
  role : roles
deriving DecidableEq, Repr

structure DB where
  users : List UserRow
  seekers : List JobSeekers
deriving DecidableEq, Repr

/-- `session.get(User, user_id)`. -/
def getUser (db : DB) (user_id : Nat) : Option UserRow :=
  db.users.find? (fun u => u.id == user_id)

/-- `session.get(JobSeekers, seeker_id)`. -/
def getSeeker (db : DB) (seeker_id : Nat) : Option JobSeekers :=
  db.seekers.find? (fun r => r.job_seeker_id == seeker_id)

/-- The `user.job_seeker_profile` relationship: the seeker row whose
`user_id` equals the user's id. -/
def job_seeker_profile (db : DB) (user_id : Nat) : Option JobSeekers :=
  db.seekers.find? (fun r => r.user_id == user_id)

/-- `JobSeekersCreate` (src/models/jobSeekers.py lines 23-28): the typed
request body for profile creation. -/
structure JobSeekersCreate where
  first_name : String
  last_name : String
  desired_job_title : String
  phone_number : String
  location : String
  current_salary : Int
  past_experience : Option String
  skill_set : Option String
deriving DecidableEq, Repr

def optVal : Option String → PyVal
  | none => PyVal.vNone
  | some s => PyVal.vStr s

/-- `JobSeekers.model_validate` of the create payload with `user_id`
injected; `newId` is the primary key the datastore assigns. -/
def toRow (d : JobSeekersCreate) (user_id : Nat) (newId : Nat) : JobSeekers :=
  { job_seeker_id := newId
    user_id := user_id
    first_name := .vStr d.first_name
    last_name := .vStr d.last_name
    desired_job_title := .vStr d.desired_job_title
    phone_number := .vStr d.phone_number
    current_salary := .vInt d.current_salary
    location := .vStr d.location
    past_experience := optVal d.past_experience
    skill_set := optVal d.skill_set }

/-- `JobSeekersUpdate` (src/models/jobSeekers.py lines 31-39) after
`model_dump(exclude_unset=True)`: an outer `none` means the field was not
supplied; `some v` means the field is set to `v` (possibly explicitly to
null).  The schema has no `user_id` or `job_seeker_id` entry. -/
structure JobSeekersUpdate where
  first_name : Option PyVal := none
  last_name : Option PyVal := none
  desired_job_title : Option PyVal := none
  phone_number : Option PyVal := none
  current_salary : Option PyVal := none
  location : Option PyVal := none
  past_experience : Option PyVal := none
  skill_set : Option PyVal := none
deriving DecidableEq, Repr

/-- `seeker_update_db.sqlmodel_update(update_data_dict)`. -/
def applyUpdate (r : JobSeekers) (u : JobSeekersUpdate) : JobSeekers :=
  { r with
    first_name := u.first_name.getD r.first_name
    last_name := u.last_name.getD r.last_name
    desired_job_title := u.desired_job_title.getD r.desired_job_title
    phone_number := u.phone_number.getD r.phone_number
    current_salary := u.current_salary.getD r.current_salary
    location := u.location.getD r.location
    past_experience := u.past_experience.getD r.past_experience
    skill_set := u.skill_set.getD r.skill_set }

/-- The exceptions the CRUD helpers raise: `HTTPException(status, detail)`,
`JobSeekerProfileNotFound` and `AuthorizationError`
(src/core/exceptions.py). -/
inductive CrudErr where
  | http (statusCode : Nat) (detail : String)
  | seekerAbsent (seeker_id : Nat)
  | authError (detail : String)
deriving DecidableEq, Repr

/-- `_create_seeker_profile_sync` (lines 11-32). -/
def _create_seeker_profile_sync (db : DB) (seeker_data : JobSeekersCreate)
    (user_id : Nat) (newId : Nat) : Except CrudErr JobSeekers :=
  match getUser db user_id with
  | none => .error (.http 400 "Authenticated user not found.")
  | some user =>
    match job_seeker_profile db user.id with
    | some _ =>
        .error (.http 400 "A job seeker profile already exists for this user.")
    | none => .ok (toRow seeker_data user_id newId)

/-- `create_new_seeker_profile` (lines 180-214): run the sync helper, then
add and commit the new row. -/
def create_new_seeker_profile (db : DB) (seeker_data : JobSeekersCreate)
    (user_id : Nat) (newId : Nat) : Except CrudErr DB :=
  match _create_seeker_profile_sync db seeker_data user_id newId with
  | .error e => .error e
  | .ok row => .ok { db with seekers := db.seekers ++ [row] }

/-- `_update_seeker_profile_sync` (lines 35-60): fetch the target and the
user, 404 when the target is absent, 403 when the user does not own it,
otherwise apply the update dict. -/
def _update_seeker_profile_sync (db : DB) (seeker_id : Nat)
    (update_data : JobSeekersUpdate) (user_id : Nat) :
    Except CrudErr JobSeekers :=
  match getSeeker db seeker_id with
  | none => .error (.seekerAbsent seeker_id)
  | some seeker_update_db =>
    match getUser db user_id with
    | none => .error (.authError "Cannot modify another user's profile.")
    | some user =>
      match job_seeker_profile db user.id with
      | none => .error (.authError "Cannot modify another user's profile.")
      | some p =>
        if p.job_seeker_id != seeker_id then
          .error (.authError "Cannot modify another user's profile.")
        else
          .ok (applyUpdate seeker_update_db update_data)

/-- `update_existing_seeker_profile` (lines 216-251): run the sync helper,
convert `JobSeekerProfileNotFound` to 404 and `AuthorizationError` to 403,
and commit the modified row. -/
def update_existing_seeker_profile (db : DB) (seeker_id : Nat)
    (profile_update : JobSeekersUpdate) (user_id : Nat) : Except CrudErr DB :=
  match _update_seeker_profile_sync db seeker_id profile_update user_id with
  | .error (.seekerAbsent sid) =>
      .error (.http 404
        ("Job Seeker Profile with ID " ++ toString sid ++ " not found."))
  | .error (.authError d) => .error (.http 403 d)
  | .error e => .error e
  | .ok row =>
      .ok { db with
            seekers := db.seekers.map
              (fun r => if r.job_seeker_id == seeker_id then row else r) }

/-- The datastore state after an update request: on an exception no mutation
had been made, so the state is unchanged. -/
def runUpdate (db : DB) (seeker_id : Nat) (profile_update : JobSeekersUpdate)
    (user_id : Nat) : DB :=
  match update_existing_seeker_profile db seeker_id profile_update user_id with
  | .ok db2 => db2
  | .error _ => db

/-- `delete_seeker_profile_by_id` (lines 253-286). -/
def delete_seeker_profile_by_id (db : DB) (seeker_id : Nat) (user_id : Nat) :
    Except CrudErr DB :=
  let ownErr :=
    match job_seeker_profile db user_id with
    | some p => p.job_seeker_id != seeker_id
    | none => false
  if ownErr then
    .error (.http 403 "Cannot delete another user's profile.")
  else
    match getSeeker db seeker_id with
    | none =>
        .error (.http 404
          ("Job Seeker Profile with ID " ++ toString seeker_id ++
           " not found."))
    | some _ =>
        .ok { db with
              seekers := db.seekers.filter
                (fun r => !(r.job_seeker_id == seeker_id)) }

/-- The at-most-one-profile-per-principal invariant: no two seeker rows
share a `user_id` (the unique `user_id` column). -/
def noDupUserIds : List JobSeekers → Bool
  | [] => true
  | r :: rest =>
      rest.all (fun s => s.user_id != r.user_id) && noDupUserIds rest

/-- Well-formedness of the datastore: `job_seeker_id` is the primary key,
so no two seeker rows share it. -/
def noDupSeekerIds : List JobSeekers → Bool
  | [] => true
  | r :: rest =>
      rest.all (fun s => s.job_seeker_id != r.job_seeker_id) &&
      noDupSeekerIds rest

/-! ### Concrete instances used to evaluate the definitions -/

/-- A fully populated seeker row. -/
def wfull : JobSeekers :=
  { job_seeker_id := 10
    user_id := 1
    first_name := .vStr "Ada"
    last_name := .vStr "Lovelace"
    desired_job_title := .vStr "Engineer"
    phone_number := .vStr "555"
    current_salary := .vInt 90000
    location := .vStr "London"
    past_experience := .vStr "2 years"
    skill_set := .vStr "Lean" }

/-- A concrete `jwt.decode`: the token string "tok" carries subject
`x@y.com`; every other string fails to decode. -/
def decode0 : String → JwtDecode :=
  fun t => if t == "tok" then .ok (some "x@y.com") else .err

/-- A principal table containing one recruiter, `x@y.com`. -/
def lookup0 : String → Option UserRec :=
  fun u => if u == "x@y.com" then some ⟨"x@y.com", roles.recruiter⟩ else none

/-- A principal table containing one job seeker, `x@y.com`. -/
def lookupJS : String → Option UserRec :=
  fun u => if u == "x@y.com" then some ⟨"x@y.com", roles.job_seeker⟩ else none

/-- An empty principal table. -/
def lookupNone : String → Option UserRec := fun _ => none

def uW : UserRow := { id := 1, email := "a@b.com", role := roles.job_seeker }

def uW2 : UserRow := { id := 2, email := "c@d.com", role := roles.job_seeker }

/-- A datastore with two users; only user 1 has a seeker profile. -/
def dbW : DB := { users := [uW, uW2], seekers := [wfull] }

def dataW : JobSeekersCreate :=
  { first_name := "Ada", last_name := "Lovelace",
    desired_job_title := "Engineer", phone_number := "555",
    location := "London", current_salary := 90000,
    past_experience := none, skill_set := none }

/-! ### Helper lemmas -/

/-- The early-exit loop of `is_section_complete` computes exactly the
spec-side conjunction over the group's fields. -/
theorem is_section_complete_eq_spec (s : JobSeekers) :
    ∀ fs : List FieldName, is_section_complete s fs = groupCompleteSpec s fs := by
  intro fs
  induction fs with
  | nil => rfl
  | cons f rest ih =>
      simp only [is_section_complete, groupCompleteSpec, List.all_cons]
      cases hb : fieldBlank (getattr s f) with
      | true =>
          simp only [if_pos rfl, fieldBlank, Bool.or_eq_true, beq_iff_eq] at hb ⊢
          rcases hb with hb | hb
          · simp [hb]
          · simp [hb]
      | false =>
          simp only [fieldBlank, Bool.or_eq_false_iff] at hb
          simp only [groupCompleteSpec] at ih
          simp [hb.1, hb.2, ih]

/-- A group containing one blank field is incomplete. -/
theorem section_incomplete_of_blank (s : JobSeekers) (f : FieldName)
    (hbl : fieldBlank (getattr s f) = true) :
    ∀ fs : List FieldName, f ∈ fs → is_section_complete s fs = false := by
  intro fs
  induction fs with
  | nil => intro h; cases h
  | cons g rest ih =>
      intro hmem
      simp only [is_section_complete]
      cases hg : fieldBlank (getattr s g) with
      | true => simp
      | false =>
          rcases List.mem_cons.mp hmem with h | h
          · subst h; rw [hbl] at hg; cases hg
          · simp [ih h]

/-- `setattr` followed by `getattr` on the same field returns the new
value. -/
theorem getattr_setField (s : JobSeekers) (f : FieldName) (v : PyVal) :
    getattr (setField s f v) f = v := by
  cases f <;> rfl

/-- Appending a row whose `user_id` is fresh preserves uniqueness of the
user link. -/
theorem noDup_append (l : List JobSeekers) (x : JobSeekers)
    (hl : noDupUserIds l = true) (hx : ∀ r ∈ l, r.user_id ≠ x.user_id) :
    noDupUserIds (l ++ [x]) = true := by
  induction l with
  | nil => simp [noDupUserIds]
  | cons r rest ih =>
      simp only [noDupUserIds, Bool.and_eq_true] at hl
      have hrx : x.user_id ≠ r.user_id := fun hc => (hx r (by simp)) hc.symm
      have ih2 := ih hl.2 (fun s hs => hx s (by simp [hs]))
      simp only [List.cons_append, noDupUserIds, Bool.and_eq_true]
      refine ⟨?_, ih2⟩
      apply List.all_eq_true.mpr
      intro s hs
      rcases List.mem_append.mp hs with h | h
      · exact List.all_eq_true.mp hl.1 s h
      · have hsx : s = x := by simpa using h
        subst hsx
        exact bne_iff_ne.mpr hrx

/-- Mapping a `user_id`-preserving function over the rows does not change
the all-distinct test against a fixed id. -/
theorem all_userid_map (f : JobSeekers → JobSeekers) (a : Nat) :
    ∀ l : List JobSeekers, (∀ r ∈ l, (f r).user_id = r.user_id) →
      (l.map f).all (fun s => s.user_id != a) =
        l.all (fun s => s.user_id != a) := by
  intro l
  induction l with
  | nil => intro _; rfl
  | cons r rest ih =>
      intro hf
      simp only [List.map_cons, List.all_cons]
      rw [hf r (by simp), ih (fun s hs => hf s (by simp [hs]))]

/-- Mapping a `user_id`-preserving function over the rows preserves
uniqueness of the user link. -/
theorem noDup_map (f : JobSeekers → JobSeekers) :
    ∀ l : List JobSeekers, (∀ r ∈ l, (f r).user_id = r.user_id) →
      noDupUserIds (l.map f) = noDupUserIds l := by
  intro l
  induction l with
  | nil => intro _; rfl
  | cons r rest ih =>
      intro hf
      simp only [List.map_cons, noDupUserIds]
      rw [hf r (by simp),
        all_userid_map f r.user_id rest (fun s hs => hf s (by simp [hs])),
        ih (fun s hs => hf s (by simp [hs]))]

theorem all_filter (p f : JobSeekers → Bool) :
    ∀ l : List JobSeekers, l.all f = true → (l.filter p).all f = true := by
  intro l
  induction l with
  | nil => intro _; rfl
  | cons r rest ih =>
      intro h
      simp only [List.all_cons, Bool.and_eq_true] at h
      cases hp : p r with
      | true =>
          rw [List.filter_cons_of_pos hp]
          simp [List.all_cons, h.1, ih h.2]
      | false =>
          rw [List.filter_cons_of_neg (by simp [hp])]
          exact ih h.2

/-- Removing rows preserves uniqueness of the user link. -/
theorem noDup_filter (p : JobSeekers → Bool) :
    ∀ l : List JobSeekers, noDupUserIds l = true →
      noDupUserIds (l.filter p) = true := by
  intro l
  induction l with
  | nil => intro _; rfl
  | cons r rest ih =>
      intro h
      simp only [noDupUserIds, Bool.and_eq_true] at h
      cases hp : p r with
      | true =>
          rw [List.filter_cons_of_pos hp]
          simp only [noDupUserIds, Bool.and_eq_true]
          exact ⟨all_filter p _ rest h.1, ih h.2⟩
      | false =>
          rw [List.filter_cons_of_neg (by simp [hp])]
          exact ih h.2

/-- With unique primary keys, the first row `find?` returns for a key is
the only row with that key. -/
theorem pk_unique (sid : Nat) :
    ∀ l : List JobSeekers, noDupSeekerIds l = true →
      ∀ target, l.find? (fun r => r.job_seeker_id == sid) = some target →
      ∀ r ∈ l, r.job_seeker_id = sid → r = target := by
  intro l
  induction l with
  | nil =>
      intro _ target hf
      simp [List.find?] at hf
  | cons a rest ih =>
      intro hnd target hf r hr hrs
      simp only [noDupSeekerIds, Bool.and_eq_true] at hnd
      cases ha : (a.job_seeker_id == sid) with
      | true =>
          simp only [List.find?_cons, ha] at hf
          have hta : a = target := by
            injection hf with hf2
          rcases List.mem_cons.mp hr with h | h
          · exact h.trans hta
          · exfalso
            have hall := List.all_eq_true.mp hnd.1 r h
            have hne : r.job_seeker_id ≠ a.job_seeker_id :=
              bne_iff_ne.mp hall
            have hasid : a.job_seeker_id = sid := beq_iff_eq.mp ha
            exact hne (by rw [hrs, hasid])
      | false =>
          simp only [List.find?_cons, ha] at hf
          rcases List.mem_cons.mp hr with h | h
          · exfalso
            subst h
            rw [hrs] at ha
            simp at ha
          · exact ih hnd.2 target hf r h hrs

/-! ### Claim theorems -/

/-- C1: for every candidate profile, the completion scorer's
`overall_percentage` is the sum of the fixed weights (Bio=50,
Experience=30, Skills=20) of exactly those groups that are complete —
a group being complete iff every field in it is non-null and, when
stringified and trimmed, non-empty — and each group's reported percentage
is 100 if that group is complete and 0 otherwise. -/
theorem scorer_weighted_binary (s : JobSeekers) :
    (profile_completion s).overall_percentage =
      (if groupCompleteSpec s BIO_PREREQUISITES then 50 else 0) +
      (if groupCompleteSpec s EXPERIENCE_PREREQUISITES then 30 else 0) +
      (if groupCompleteSpec s SKILL_PREREQUISITES then 20 else 0) ∧
    (profile_completion s).bio_percentage =
      (if groupCompleteSpec s BIO_PREREQUISITES then 100 else 0) ∧
    (profile_completion s).experience_percentage =
      (if groupCompleteSpec s EXPERIENCE_PREREQUISITES then 100 else 0) ∧
    (profile_completion s).skills_percentage =
      (if groupCompleteSpec s SKILL_PREREQUISITES then 100 else 0) := by
  have hb := is_section_complete_eq_spec s BIO_PREREQUISITES
  have he := is_section_complete_eq_spec s EXPERIENCE_PREREQUISITES
  have hs := is_section_complete_eq_spec s SKILL_PREREQUISITES
  refine ⟨?_, ?_, ?_, ?_⟩ <;>
    simp only [profile_completion, hb, he, hs, WEIGHTS] <;>
    cases groupCompleteSpec s BIO_PREREQUISITES <;>
    cases groupCompleteSpec s EXPERIENCE_PREREQUISITES <;>
    cases groupCompleteSpec s SKILL_PREREQUISITES <;>
    rfl

/-- C7: if a profile's Bio group scores 100, replacing any single Bio field
by a string that trims to empty (the empty string or whitespace only)
makes the Bio group score exactly 0, never an intermediate value. -/
theorem bio_group_all_or_nothing (s : JobSeekers) (f : FieldName) (w : String)
    (hf : f ∈ BIO_PREREQUISITES)
    (h100 : (profile_completion s).bio_percentage = 100)
    (hw : pyStrip w = "") :
    (profile_completion (setField s f (PyVal.vStr w))).bio_percentage = 0 := by
  have hbl : fieldBlank (getattr (setField s f (PyVal.vStr w)) f) = true := by
    rw [getattr_setField]
    simp [fieldBlank, pyStr, hw]
  have hinc :=
    section_incomplete_of_blank (setField s f (PyVal.vStr w)) f hbl
      BIO_PREREQUISITES hf
  simp [profile_completion, hinc]

/-- Witness for C7: a full profile scores Bio 100; blanking only
`location` with a whitespace string drops Bio to 0. -/
theorem bio_group_all_or_nothing_witness :
    FieldName.location ∈ BIO_PREREQUISITES ∧
    (profile_completion wfull).bio_percentage = 100 ∧
    pyStrip " " = "" ∧
    (profile_completion
        (setField wfull FieldName.location (PyVal.vStr " "))).bio_percentage
      = 0 :=
  ⟨by decide, by decide, by decide,
    bio_group_all_or_nothing wfull FieldName.location " " (by decide)
      (by decide) (by decide)⟩

/-- C3: a GET request whose path matches a public bypass pattern is
forwarded with no session acquired, for every token-verification function,
principal table and authorization header — so no bearer token is required
or inspected, even when the path also matches a route-policy entry. -/
theorem gate_bypass_get (decode : String → JwtDecode)
    (lookup : String → Option UserRec) (req : Request)
    (hm : req.method = "GET") (hb : matchesBypass req.path = true) :
    dispatch decode lookup req = (GateOutcome.forward, []) := by
  simp [dispatch, hm, hb]

/-- Witness for C3: unauthenticated GET of `/seekers/3`, a path that also
matches the `/seekers` route policy, is forwarded. -/
theorem gate_bypass_get_witness :
    matchesBypass "/seekers/3" = true ∧
    findPolicy "/seekers/3" = some [roles.job_seeker] ∧
    dispatch decode0 lookup0
        { path := "/seekers/3", method := "GET", authHeader := none } =
      (GateOutcome.forward, []) :=
  ⟨by decide, by decide,
    gate_bypass_get decode0 lookup0
      { path := "/seekers/3", method := "GET", authHeader := none }
      rfl (by decide)⟩

/-- C4: a request whose path matches no route-policy entry (entries tested
in table order, first match wins) and which is not a bypassed GET is
forwarded regardless of any bearer token. -/
theorem gate_no_policy (decode : String → JwtDecode)
    (lookup : String → Option UserRec) (req : Request)
    (hp : findPolicy req.path = none)
    (hnb : (req.method == "GET" && matchesBypass req.path) = false) :
    dispatch decode lookup req = (GateOutcome.forward, []) := by
  simp [dispatch, hp, hnb]

/-- Witness for C4: a POST to `/users/5` (no policy entry, not a bypass)
with no credentials at all is forwarded. -/
theorem gate_no_policy_witness :
    findPolicy "/users/5" = none ∧
    dispatch decode0 lookup0
        { path := "/users/5", method := "POST", authHeader := none } =
      (GateOutcome.forward, []) :=
  ⟨by decide,
    gate_no_policy decode0 lookup0
      { path := "/users/5", method := "POST", authHeader := none }
      (by decide) (by decide)⟩

/-- C5: when a route policy matched (and the request is not a bypassed
GET), a missing or malformed Authorization header, and a bearer token that
fails verification, are each rejected with a 401 response by the gate
itself, before the request reaches any handler. -/
theorem gate_unauthenticated (decode : String → JwtDecode)
    (lookup : String → Option UserRec) (req : Request)
    (allowed : List roles)
    (hpol : findPolicy req.path = some allowed)
    (hnb : (req.method == "GET" && matchesBypass req.path) = false)
    (hbad : req.authHeader = none ∨
      (∃ h, req.authHeader = some h ∧ startsWith "Bearer " h = false) ∨
      (∃ h, req.authHeader = some h ∧ startsWith "Bearer " h = true ∧
        verify_token decode (extractToken h) = none)) :
    ∃ d, (dispatch decode lookup req).1 = GateOutcome.reject 401 d := by
  rcases hbad with hnone | ⟨h, hh, hb⟩ | ⟨h, hh, hb, hv⟩
  · exact ⟨"Not authenticated. Missing Bearer token.",
      by simp [dispatch, hpol, hnb, hnone]⟩
  · exact ⟨"Not authenticated. Missing Bearer token.",
      by simp [dispatch, hpol, hnb, hh, hb]⟩
  · exact ⟨"Authentication successful but user not found in DB.",
      by simp [dispatch, hpol, hnb, hh, hb, hv]⟩

/-- Witness for C5: a POST to `/listings` carrying a token that fails
verification is rejected with 401. -/
theorem gate_unauthenticated_witness :
    findPolicy "/listings" = some [roles.recruiter, roles.job_seeker] ∧
    verify_token decode0 (extractToken "Bearer bad") = none ∧
    (∃ d, (dispatch decode0 lookup0
        { path := "/listings", method := "POST",
          authHeader := some "Bearer bad" }).1 = GateOutcome.reject 401 d) :=
  ⟨by decide, by decide,
    gate_unauthenticated decode0 lookup0
      { path := "/listings", method := "POST",
        authHeader := some "Bearer bad" }
      [roles.recruiter, roles.job_seeker] (by decide) (by decide)
      (Or.inr (Or.inr ⟨"Bearer bad", rfl, by decide, by decide⟩))⟩

/-- C2 as frozen is refuted: a GET whose path matches both a bypass
pattern and the `/seekers` policy, carrying a valid token that resolves to
a Recruiter (a role outside the policy's allowed set), is forwarded rather
than denied with 403 — the bypass check short-circuits the role check. -/
theorem gate_role_check_counterexample :
    findPolicy "/seekers/1" = some [roles.job_seeker] ∧
    verify_token decode0 (extractToken "Bearer tok") = some "x@y.com" ∧
    lookup0 "x@y.com" = some { email := "x@y.com", role := roles.recruiter } ∧
    roles.recruiter ∉ [roles.job_seeker] ∧
    (dispatch decode0 lookup0
        { path := "/seekers/1", method := "GET",
          authHeader := some "Bearer tok" }).1 = GateOutcome.forward := by
  refine ⟨by decide, by decide, by decide, by decide, by decide⟩

/-- C2 (amended): for a request that is not a public-bypass GET, whose path
matches a route policy and whose bearer token verifies and resolves to a
principal, the gate forwards exactly when the principal's role is in the
policy's allowed set, and otherwise rejects with 403. -/
theorem gate_role_check (decode : String → JwtDecode)
    (lookup : String → Option UserRec) (req : Request)
    (allowed : List roles) (h : String) (uname : String) (user : UserRec)
    (hpol : findPolicy req.path = some allowed)
    (hnb : (req.method == "GET" && matchesBypass req.path) = false)
    (hh : req.authHeader = some h)
    (hb : startsWith "Bearer " h = true)
    (hv : verify_token decode (extractToken h) = some uname)
    (hu : lookup uname = some user) :
    (user.role ∈ allowed → (dispatch decode lookup req).1 = GateOutcome.forward) ∧
    (user.role ∉ allowed →
      (dispatch decode lookup req).1 =
        GateOutcome.reject 403
          (user.role.value ++ " role is not authorized for this resource.")) := by
  constructor
  · intro hmem
    simp [dispatch, hpol, hnb, hh, hb, hv, hu, hmem]
  · intro hmem
    simp [dispatch, hpol, hnb, hh, hb, hv, hu, hmem]

/-- Witness for C2 (amended): a POST to `/seekers/1` with a valid token of
a Job Seeker principal is forwarded. -/
theorem gate_role_check_witness :
    findPolicy "/seekers/1" = some [roles.job_seeker] ∧
    lookupJS "x@y.com" = some { email := "x@y.com", role := roles.job_seeker } ∧
    (dispatch decode0 lookupJS
        { path := "/seekers/1", method := "POST",
          authHeader := some "Bearer tok" }).1 = GateOutcome.forward :=
  ⟨by decide, by decide,
    (gate_role_check decode0 lookupJS
        { path := "/seekers/1", method := "POST",
          authHeader := some "Bearer tok" }
        [roles.job_seeker] "Bearer tok" "x@y.com"
        { email := "x@y.com", role := roles.job_seeker }
        (by decide) (by decide) rfl (by decide) (by decide) (by decide)).1
      (by decide)⟩

/-- C6 as frozen is refuted: when a verified token's subject resolves to no
principal, the gate rejects with status 401 ("Authentication successful
but user not found in DB."), not with a 404 NotFound error. -/
theorem gate_user_absent_counterexample :
    verify_token decode0 (extractToken "Bearer tok") = some "x@y.com" ∧
    lookupNone "x@y.com" = none ∧
    findPolicy "/listings" = some [roles.recruiter, roles.job_seeker] ∧
    (dispatch decode0 lookupNone
        { path := "/listings", method := "POST",
          authHeader := some "Bearer tok" }).1 =
      GateOutcome.reject 401
        "Authentication successful but user not found in DB." := by
  refine ⟨by decide, by decide, by decide, by decide⟩

/-- C6 (amended): when the policy matched, the token verifies, and its
subject resolves to no principal, the gate rejects with 401 and the detail
"Authentication successful but user not found in DB.", while the
`get_current_user` dependency used by route handlers raises 404
"User not found." on the same token. -/
theorem gate_user_absent (decode : String → JwtDecode)
    (lookup : String → Option UserRec) (req : Request)
    (allowed : List roles) (h : String) (uname : String)
    (hpol : findPolicy req.path = some allowed)
    (hnb : (req.method == "GET" && matchesBypass req.path) = false)
    (hh : req.authHeader = some h)
    (hb : startsWith "Bearer " h = true)
    (hv : verify_token decode (extractToken h) = some uname)
    (hu : lookup uname = none) :
    (dispatch decode lookup req).1 =
      GateOutcome.reject 401
        "Authentication successful but user not found in DB." ∧
    get_current_user decode lookup (extractToken h) =
      Except.error (404, "User not found.") := by
  constructor
  · simp [dispatch, hpol, hnb, hh, hb, hv, hu]
  · simp [get_current_user, hv, hu]

/-- Witness for C6 (amended): a concrete valid token whose subject is
unknown to the principal table. -/
theorem gate_user_absent_witness :
    verify_token decode0 (extractToken "Bearer tok") = some "x@y.com" ∧
    (dispatch decode0 lookupNone
        { path := "/listings", method := "POST",
          authHeader := some "Bearer tok" }).1 =
      GateOutcome.reject 401
        "Authentication successful but user not found in DB." :=
  ⟨by decide,
    (gate_user_absent decode0 lookupNone
        { path := "/listings", method := "POST",
          authHeader := some "Bearer tok" }
        [roles.recruiter, roles.job_seeker] "Bearer tok" "x@y.com"
        (by decide) (by decide) rfl (by decide) (by decide) (by decide)).1⟩

/-- C8: at most one candidate profile per principal. Profile creation
fails with a 400 error when the authenticated user already has a
job-seeker profile, and the uniqueness of the `user_id` link is preserved
by creation, update and deletion (the datastore's primary key on
`job_seeker_id` is assumed). -/
theorem one_profile_per_principal
    (db : DB) (data : JobSeekersCreate) (uid newId sid uid2 : Nat)
    (upd : JobSeekersUpdate)
    (hpk : noDupSeekerIds db.seekers = true)
    (hinv : noDupUserIds db.seekers = true) :
    (∀ u p, getUser db uid = some u → job_seeker_profile db uid = some p →
      create_new_seeker_profile db data uid newId =
        Except.error (CrudErr.http 400
          "A job seeker profile already exists for this user.")) ∧
    (∀ db2, create_new_seeker_profile db data uid newId = Except.ok db2 →
      noDupUserIds db2.seekers = true) ∧
    (∀ db2, update_existing_seeker_profile db sid upd uid2 = Except.ok db2 →
      noDupUserIds db2.seekers = true) ∧
    (∀ db2, delete_seeker_profile_by_id db sid uid2 = Except.ok db2 →
      noDupUserIds db2.seekers = true) := by
  refine ⟨?_, ?_, ?_, ?_⟩
  · -- creation refuses a second profile with 400
    intro u p hu hp
    have huid : u.id = uid := by
      have := List.find?_some hu
      simpa [beq_iff_eq] using this
    simp [create_new_seeker_profile, _create_seeker_profile_sync, hu,
      huid, hp]
  · -- creation preserves the unique user link
    intro db2 hok
    cases hgu : getUser db uid with
    | none =>
        simp [create_new_seeker_profile, _create_seeker_profile_sync,
          hgu] at hok
    | some u =>
        have huid : u.id = uid := by
          have := List.find?_some hgu
          simpa [beq_iff_eq] using this
        cases hpp : job_seeker_profile db u.id with
        | some p =>
            simp [create_new_seeker_profile, _create_seeker_profile_sync,
              hgu, hpp] at hok
        | none =>
            simp only [create_new_seeker_profile,
              _create_seeker_profile_sync, hgu, hpp,
              Except.ok.injEq] at hok
            have hfresh : ∀ r ∈ db.seekers,
                r.user_id ≠ (toRow data uid newId).user_id := by
              intro r hr
              have := List.find?_eq_none.mp (huid ▸ hpp) r hr
              simpa [toRow, beq_iff_eq] using this
            rw [← hok]
            exact noDup_append db.seekers (toRow data uid newId) hinv hfresh
  · -- update preserves the unique user link
    intro db2 hok
    cases hseek : getSeeker db sid with
    | none =>
        simp [update_existing_seeker_profile, _update_seeker_profile_sync,
          hseek] at hok
    | some target =>
        cases hgu : getUser db uid2 with
        | none =>
            simp [update_existing_seeker_profile,
              _update_seeker_profile_sync, hseek, hgu] at hok
        | some user =>
            cases hpp : job_seeker_profile db user.id with
            | none =>
                simp [update_existing_seeker_profile,
                  _update_seeker_profile_sync, hseek, hgu, hpp] at hok
            | some p =>
                cases hown : (p.job_seeker_id != sid) with
                | true =>
                    simp [update_existing_seeker_profile,
                      _update_seeker_profile_sync, hseek, hgu, hpp,
                      hown] at hok
                | false =>
                    simp only [update_existing_seeker_profile,
                      _update_seeker_profile_sync, hseek, hgu, hpp, hown,
                      Bool.false_eq_true, if_false, Except.ok.injEq] at hok
                    have hpres : ∀ r ∈ db.seekers,
                        ((fun r => if r.job_seeker_id == sid
                            then applyUpdate target upd else r) r).user_id
                          = r.user_id := by
                      intro r hr
                      by_cases hc : (r.job_seeker_id == sid) = true
                      · have hrt : r = target :=
                          pk_unique sid db.seekers hpk target hseek r hr
                            (beq_iff_eq.mp hc)
                        have hct : (target.job_seeker_id == sid) = true := by
                          rw [← hrt]; exact hc
                        simp [hrt, hct, applyUpdate]
                      · simp [hc]
                    rw [← hok]
                    calc noDupUserIds (db.seekers.map _)
                        = noDupUserIds db.seekers :=
                          noDup_map _ db.seekers hpres
                      _ = true := hinv
  · -- deletion preserves the unique user link
    intro db2 hok
    cases hpp : job_seeker_profile db uid2 with
    | some p =>
        cases hown : (p.job_seeker_id != sid) with
        | true =>
            simp [delete_seeker_profile_by_id, hpp, hown] at hok
        | false =>
            cases hseek : getSeeker db sid with
            | none =>
                simp [delete_seeker_profile_by_id, hpp, hown, hseek] at hok
            | some t =>
                simp only [delete_seeker_profile_by_id, hpp, hown, hseek,
                  Bool.false_eq_true, if_false, Except.ok.injEq] at hok
                rw [← hok]
                exact noDup_filter _ db.seekers hinv
    | none =>
        cases hseek : getSeeker db sid with
        | none =>
            simp [delete_seeker_profile_by_id, hpp, hseek] at hok
        | some t =>
            simp only [delete_seeker_profile_by_id, hpp, hseek,
              Bool.false_eq_true, if_false, Except.ok.injEq] at hok
            rw [← hok]
            exact noDup_filter _ db.seekers hinv

/-- Witness for C8: in a store where user 1 already owns profile 10,
creating a second profile for user 1 fails with the 400 error. -/
theorem one_profile_per_principal_witness :
    noDupSeekerIds dbW.seekers = true ∧
    noDupUserIds dbW.seekers = true ∧
    getUser dbW 1 = some uW ∧
    job_seeker_profile dbW 1 = some wfull ∧
    create_new_seeker_profile dbW dataW 1 11 =
      Except.error (CrudErr.http 400
        "A job seeker profile already exists for this user.") :=
  ⟨by decide, by decide, by decide, by decide,
    (one_profile_per_principal dbW dataW 1 11 10 2
        { } (by decide) (by decide)).1 uW wfull (by decide) (by decide)⟩

/-- C10: updating a candidate profile that exists but is not owned by the
requesting principal (the principal has no job-seeker profile, or its
profile id differs from the target's) fails with a 403 error, and the
targeted profile is left unchanged. -/
theorem update_requires_ownership
    (db : DB) (sid uid : Nat) (upd : JobSeekersUpdate) (row : JobSeekers)
    (hrow : getSeeker db sid = some row)
    (hno : getUser db uid = none ∨ job_seeker_profile db uid = none ∨
      (∃ p, job_seeker_profile db uid = some p ∧ p.job_seeker_id ≠ sid)) :
    update_existing_seeker_profile db sid upd uid =
      Except.error (CrudErr.http 403
        "Cannot modify another user's profile.") ∧
    getSeeker (runUpdate db sid upd uid) sid = some row := by
  have h403 : update_existing_seeker_profile db sid upd uid =
      Except.error (CrudErr.http 403
        "Cannot modify another user's profile.") := by
    rcases hno with hgu | hjp | ⟨p, hp, hne⟩
    · simp [update_existing_seeker_profile, _update_seeker_profile_sync,
        hrow, hgu]
    · cases hgu : getUser db uid with
      | none =>
          simp [update_existing_seeker_profile,
            _update_seeker_profile_sync, hrow, hgu]
      | some u =>
          have huid : u.id = uid := by
            have := List.find?_some hgu
            simpa [beq_iff_eq] using this
          simp [update_existing_seeker_profile,
            _update_seeker_profile_sync, hrow, hgu, huid, hjp]
    · cases hgu : getUser db uid with
      | none =>
          simp [update_existing_seeker_profile,
            _update_seeker_profile_sync, hrow, hgu]
      | some u =>
          have huid : u.id = uid := by
            have := List.find?_some hgu
            simpa [beq_iff_eq] using this
          have hb : (p.job_seeker_id != sid) = true := bne_iff_ne.mpr hne
          simp [update_existing_seeker_profile,
            _update_seeker_profile_sync, hrow, hgu, huid, hp, hb]
  refine ⟨h403, ?_⟩
  simp [runUpdate, h403, hrow]

/-- Witness for C10: user 2 has no profile; updating user 1's profile 10
as user 2 fails with 403 and leaves the stored row intact. -/
theorem update_requires_ownership_witness :
    getSeeker dbW 10 = some wfull ∧
    job_seeker_profile dbW 2 = none ∧
    update_existing_seeker_profile dbW 10 { } 2 =
      Except.error (CrudErr.http 403
        "Cannot modify another user's profile.") ∧
    getSeeker (runUpdate dbW 10 { } 2) 10 = some wfull :=
  ⟨by decide, by decide,
    (update_requires_ownership dbW 10 2 { } wfull (by decide)
        (Or.inr (Or.inl (by decide)))).1,
    (update_requires_ownership dbW 10 2 { } wfull (by decide)
        (Or.inr (Or.inl (by decide)))).2⟩

/-- C9: on every execution of the gate, the session trace of the
`async with` block is either empty (no session acquired) or exactly one
acquisition followed by its release — no exit path of `dispatch` leaks a
session. -/
theorem gate_session_balanced (decode : String → JwtDecode)
    (lookup : String → Option UserRec) (req : Request) :
    (dispatch decode lookup req).2 = [] ∨
    (dispatch decode lookup req).2 =
      [SessionEvent.acquire, SessionEvent.release] := by
  by_cases h1 : (req.method == "GET" && matchesBypass req.path) = true
  · simp [dispatch, h1]
  · rw [Bool.not_eq_true] at h1
    cases h2 : findPolicy req.path with
    | none => simp [dispatch, h1, h2]
    | some allowed =>
      cases h3 : req.authHeader with
      | none => simp [dispatch, h1, h2, h3]
      | some h =>
        by_cases h4 : startsWith "Bearer " h = true
        · cases h5 : verify_token decode (extractToken h) with
          | none => simp [dispatch, h1, h2, h3, h4, h5]
          | some u =>
            cases h6 : lookup u with
            | none => simp [dispatch, h1, h2, h3, h4, h5, h6]
            | some user =>
              by_cases h7 : user.role ∈ allowed
              · simp [dispatch, h1, h2, h3, h4, h5, h6, h7]
              · simp [dispatch, h1, h2, h3, h4, h5, h6, h7]
        · rw [Bool.not_eq_true] at h4
          simp [dispatch, h1, h2, h3, h4]

end JobBoard
